import Mathlib

/-!
Verification of the drift workspace orchestrator core (crates drift-core and
drift-daemon) against its natural-language specification.  Each definition is a
shallow embedding of the Rust item named in its doc comment; machine integers
are modelled as `Nat` (durations in milliseconds, loop time in 500 ms ticks),
fallible paths as `Option`, and the JSON wire format as an explicit `Json`
inductive mirroring `serde_json::Value`.
-/

/-- JSON values as produced and consumed by serde_json (`serde_json::Value`).
Numbers are collapsed to `Int`: no claim depends on float payloads. -/
inductive Json where
  | null
  | bool (b : Bool)
  | num (n : Int)
  | str (s : String)
  | arr (elems : List Json)
  | obj (fields : List (String × Json))

/-- The single wire type `drift_core::events::Event` (events.rs lines 8-25).
Field `event_type` is serialized under the JSON key "type"; the five trailing
fields are `Option`s with serde `default` + `skip_serializing_if Option::is_none`. -/
structure Event where
  event_type : String
  project : String
  source : String
  ts : String
  level : Option String
  title : Option String
  body : Option String
  meta : Option Json
  priority : Option String

/-- Association-list read, standing in for the `HashMap` lookups of the source. -/
def alistGet {α β : Type} [DecidableEq α] : List (α × β) → α → Option β
  | [], _ => none
  | (k, v) :: rest, key => if k = key then some v else alistGet rest key

/-- Association-list write (insert-or-replace), standing in for `HashMap`
insertion / `get_mut` update in the source. -/
def alistSet {α β : Type} [DecidableEq α] : List (α × β) → α → β → List (α × β)
  | [], key, v => [(key, v)]
  | (k, v') :: rest, key, v =>
    if k = key then (key, v) :: rest else (k, v') :: alistSet rest key v

/-- Field lookup in a serde_json object: serde matches struct fields by key,
taking the first occurrence and ignoring unknown keys. -/
def jlookup : List (String × Json) → String → Option Json
  | [], _ => none
  | (k, v) :: rest, key => if k = key then some v else jlookup rest key

/-- serde deserialization of a `String` field: only a JSON string succeeds. -/
def Json.asString : Json → Option String
  | .str s => some s
  | _ => none

/-- serde deserialization of an `Option<String>` field with `#[serde(default)]`:
an absent field and a JSON null both give `None`; a string gives `Some`;
any other value is a type error. -/
def getOptString : Option Json → Option (Option String)
  | none => some none
  | some .null => some none
  | some (.str s) => some (some s)
  | some _ => none

/-- serde deserialization of an `Option<serde_json::Value>` field with
`#[serde(default)]`: absent and JSON null both give `None` (the `Option`
deserializer consumes the null before the inner `Value` sees it); any other
value `v` gives `Some v`. -/
def getOptJson : Option Json → Option (Option Json)
  | none => some none
  | some .null => some none
  | some v => some (some v)

/-- Serialization of `Event` by the serde derive (events.rs lines 8-25): fields
in declaration order, `event_type` renamed to "type", each `None` optional
field omitted entirely (`skip_serializing_if = "Option::is_none"`). -/
def eventToJson (e : Event) : Json :=
  Json.obj
    ([("type", Json.str e.event_type), ("project", Json.str e.project),
      ("source", Json.str e.source), ("ts", Json.str e.ts)]
     ++ (match e.level with | some l => [("level", Json.str l)] | none => [])
     ++ (match e.title with | some t => [("title", Json.str t)] | none => [])
     ++ (match e.body with | some b => [("body", Json.str b)] | none => [])
     ++ (match e.meta with | some m => [("meta", m)] | none => [])
     ++ (match e.priority with | some p => [("priority", Json.str p)] | none => []))

/-- Deserialization of `Event` by the serde derive: a JSON object whose four
required fields are strings and whose optional fields, when present, have the
right shape; anything else fails. -/
def eventFromJson (j : Json) : Option Event :=
  match j with
  | .obj fields => do
    let ty ← (jlookup fields "type").bind Json.asString
    let proj ← (jlookup fields "project").bind Json.asString
    let src ← (jlookup fields "source").bind Json.asString
    let ts ← (jlookup fields "ts").bind Json.asString
    let lv ← getOptString (jlookup fields "level")
    let ti ← getOptString (jlookup fields "title")
    let bo ← getOptString (jlookup fields "body")
    let me ← getOptJson (jlookup fields "meta")
    let pr ← getOptString (jlookup fields "priority")
    pure { event_type := ty, project := proj, source := src, ts := ts,
           level := lv, title := ti, body := bo, meta := me, priority := pr }
  | _ => none

/-! ## Event bus daemon: priority classification, ring buffers, fan-out
(drift-daemon/src/daemon.rs) -/

/-- `DaemonInner::classify_priority` (daemon.rs lines 260-271).  The Rust
`match (is_active, level)` with or-patterns is rendered as the equivalent
sequential comparison chain. -/
def classifyPriority (active_project : Option String) (e : Event) : String :=
  let is_active : Bool := active_project == some e.project
  let level : String := e.level.getD "info"
  if is_active then
    if level = "error" then "critical"
    else if level = "success" then "high"
    else if level = "warning" then "high"
    else "low"
  else
    if level = "error" then "high"
    else if level = "success" then "medium"
    else "silent"

/-- The priority table exactly as the spec states it (spec section 4.2.3):
with `A = event.project == active_project` and `L = event.level`, row `A=true`
maps error/success/warning/other to critical/high/high/low and row `A=false`
maps them to high/medium/silent/silent.  This definition follows the spec's
words and is compared against `classifyPriority`, which follows the source. -/
def spec_priority (active_project : Option String) (project : String)
    (level : Option String) : String :=
  if active_project = some project then
    if level = some "error" then "critical"
    else if level = some "success" then "high"
    else if level = some "warning" then "high"
    else "low"
  else
    if level = some "error" then "high"
    else if level = some "success" then "medium"
    else "silent"

/-- Bounded FIFO push: `push_back`, then `pop_front` when the configured size is
exceeded.  This is the buffer discipline of both the daemon's per-project ring
(daemon.rs lines 277-283) and the subscriber manager's replay buffer
(subscriber.rs lines 61-64). -/
def ringPush {α : Type} (size : Nat) (buffer : List α) (x : α) : List α :=
  let b := buffer ++ [x]
  if size < b.length then b.drop 1 else b

/-- The mutable state of `DaemonInner` relevant to event processing: the active
project, the per-project event rings, and the configured ring size.  The
workspace/window mirror is not modelled; it feeds `process_event` only through
`active_project` and the synthesized events themselves. -/
structure DaemonSt where
  active_project : Option String
  events : List (String × List Event)
  buffer_size : Nat

/-- `DaemonInner::process_event` (daemon.rs lines 273-290): classify, overwrite
`priority`, append to the project's ring (evicting FIFO on overflow), and send
the same classified event to the subscriber fan-out channel.  Returns the new
state and the event as stored and sent. -/
def processEvent (st : DaemonSt) (e : Event) : DaemonSt × Event :=
  let priority := classifyPriority st.active_project e
  let ev : Event := { e with priority := some priority }
  let buffer := (alistGet st.events ev.project).getD []
  let buffer := ringPush st.buffer_size buffer ev
  ({ st with events := alistSet st.events ev.project buffer }, ev)

/-- The daemon state owner's event intake over a whole run: every event —
externally emitted (`handle_emit_event`, daemon.rs lines 292-294) or
internally synthesized inside `handle_niri_event` — funnels through
`process_event`.  Returns the final state and the events sent to the
subscriber fan-out channel, in processing order. -/
def daemonRun (st : DaemonSt) : List Event → DaemonSt × List Event
  | [] => (st, [])
  | e :: rest =>
    let p := processEvent st e
    let r := daemonRun p.1 rest
    (r.1, p.2 :: r.2)

/-! ## Emit intake (drift-daemon/src/emit_listener.rs) -/

/-- The intake stamping of `run_emit_listener` (emit_listener.rs lines 38-44):
`ts` is replaced by the current timestamp exactly when it is empty, and
`level` defaults to `Some("info")` exactly when it is `None`. -/
def stampEvent (now : String) (e : Event) : Event :=
  { e with
    ts := if e.ts = "" then now else e.ts,
    level := if e.level.isNone then some "info" else e.level }

/-- One line of the emit intake loop (emit_listener.rs lines 34-53): a line is
either a parsed JSON value or unreadable (`none` covers skipped blank lines and
text that is not valid JSON).  A value that deserializes to an `Event` is
stamped and forwarded; anything else produces nothing and reading continues. -/
def emitHandleLine (now : String) (line : Option Json) : Option Event :=
  match line with
  | some j =>
    match eventFromJson j with
    | some e => some (stampEvent now e)
    | none => none
  | none => none

/-- The emit intake loop over the lines of one connection: each line is handled
independently; a failed line is dropped and the loop moves to the next line. -/
def emitProcessLines (now : String) (lines : List (Option Json)) : List Event :=
  lines.filterMap (emitHandleLine now)

/-! ## Voice announcer (drift-core/src/commander.rs) -/

/-- `SPEAKABLE_EVENTS` (commander.rs lines 36-42). -/
def SPEAKABLE_EVENTS : List String :=
  ["agent.completed", "agent.error", "agent.needs_review", "service.crashed", "build.failed"]

/-- `is_speakable_event` (commander.rs lines 44-46). -/
def is_speakable_event (event_type : String) : Bool :=
  SPEAKABLE_EVENTS.contains event_type

/-- `should_speak` (commander.rs lines 48-50). -/
def should_speak (e : Event) : Bool :=
  is_speakable_event e.event_type

/-- `title_or_type` (commander.rs lines 58-64): the non-empty title, else the
event type. -/
def title_or_type (e : Event) : String :=
  match e.title with
  | some t => if t = "" then e.event_type else t
  | none => e.event_type

/-- `render_speech` (commander.rs lines 66-77), with the Rust `match` on the
event type rendered as the equivalent comparison chain. -/
def render_speech (e : Event) : String :=
  if e.event_type = "agent.completed" then
    e.project ++ ": agent finished — " ++ title_or_type e
  else if e.event_type = "agent.error" then
    e.project ++ ": agent error — " ++ title_or_type e
  else if e.event_type = "agent.needs_review" then
    e.project ++ ": agent needs review — " ++ title_or_type e
  else if e.event_type = "service.crashed" then
    e.project ++ ": " ++ e.source ++ " crashed"
  else if e.event_type = "build.failed" then
    e.project ++ ": build failed — " ++ title_or_type e
  else
    e.project ++ ": " ++ title_or_type e

/-- `CooldownEntry` (commander.rs lines 81-84); `expires` is an instant in
milliseconds from an arbitrary origin. -/
structure CooldownEntry where
  count : Nat
  expires : Nat
deriving DecidableEq, Repr

/-- `CooldownTracker` (commander.rs lines 86-97); the `HashMap` keyed by
(project, event type) is modelled as an association list, `cooldown` is in
milliseconds. -/
structure CooldownTracker where
  entries : List ((String × String) × CooldownEntry)
  cooldown : Nat
deriving DecidableEq, Repr

/-- `CooldownTracker::new` (commander.rs lines 92-97): `Duration::from_secs`. -/
def CooldownTracker.new (cooldown_sec : Nat) : CooldownTracker :=
  { entries := [], cooldown := cooldown_sec * 1000 }

/-- `CooldownAction` (commander.rs lines 147-151). -/
inductive CooldownAction where
  | speak
  | suppress
  | batch (count : Nat)
deriving DecidableEq, Repr

/-- `CooldownTracker::check` (commander.rs lines 101-128), with `now` the
current instant in milliseconds. -/
def CooldownTracker.check (t : CooldownTracker) (project event_type : String)
    (now : Nat) : CooldownTracker × CooldownAction :=
  let key := (project, event_type)
  match alistGet t.entries key with
  | some entry =>
    if now < entry.expires then
      let bumped : CooldownEntry := { entry with count := entry.count + 1 }
      ({ t with entries := alistSet t.entries key bumped }, .suppress)
    else
      -- Window expired
      let count := entry.count
      let fresh : CooldownEntry := { count := 1, expires := now + t.cooldown }
      let t' : CooldownTracker := { t with entries := alistSet t.entries key fresh }
      if count > 1 then (t', .batch count) else (t', .speak)
  | none =>
    let fresh : CooldownEntry := { count := 1, expires := now + t.cooldown }
    ({ t with entries := alistSet t.entries key fresh }, .speak)

/-- `CooldownTracker::flush_expired` (commander.rs lines 130-144): drop every
expired entry, returning a batch triple (project, event type, count) for each
expired entry whose count exceeds 1. -/
def CooldownTracker.flush_expired (t : CooldownTracker) (now : Nat) :
    CooldownTracker × List (String × String × Nat) :=
  let batches := t.entries.filterMap fun kv =>
    if kv.2.expires ≤ now ∧ 1 < kv.2.count then some (kv.1.1, kv.1.2, kv.2.count) else none
  let kept := t.entries.filter fun kv => now < kv.2.expires
  ({ t with entries := kept }, batches)

/-- The batch line `format!("{project}: {count} more {event_type} events")`
(commander.rs lines 460 and 499-502). -/
def batchText (project : String) (count : Nat) (event_type : String) : String :=
  project ++ ": " ++ toString count ++ " more " ++ event_type ++ " events"

/-- Handling of one parsed event line inside `run_commander`'s read loop
(commander.rs lines 489-527): non-speakable events are ignored; a suppressed
event produces nothing; a `Batch` result sends the batch line and then falls
through, like `Speak`, to sending the rendered text of the current event.
Returns the updated tracker and the utterances sent to the speech worker. -/
def commanderHandleEvent (cd : CooldownTracker) (e : Event) (now : Nat) :
    CooldownTracker × List String :=
  if should_speak e then
    match cd.check e.project e.event_type now with
    | (cd', .suppress) => (cd', [])
    | (cd', .batch count) =>
      (cd', [batchText e.project count e.event_type, render_speech e])
    | (cd', .speak) => (cd', [render_speech e])
  else (cd, [])

/-- The commander read loop over one connection (commander.rs lines 446-538,
mute flag clear): each iteration first flushes expired cooldown windows
(commander.rs lines 459-466) and then reads one line, which is either an event
(`some e`) or a read timeout / blank line (`none`).  Each iteration's `now` is
its wall-clock instant in milliseconds. -/
def commanderLoop (cd : CooldownTracker) :
    List (Nat × Option Event) → CooldownTracker × List String
  | [] => (cd, [])
  | (now, line) :: rest =>
    let f := cd.flush_expired now
    let flushUtts := f.2.map fun b => batchText b.1 b.2.2 b.2.1
    match line with
    | none =>
      let r := commanderLoop f.1 rest
      (r.1, flushUtts ++ r.2)
    | some e =>
      let h := commanderHandleEvent f.1 e now
      let r := commanderLoop h.1 rest
      (r.1, flushUtts ++ h.2 ++ r.2)

/-! ## Agent command synthesis (drift-core/src/agent.rs) and service
descriptors (drift-core/src/config.rs) -/

/-- `RestartPolicy` (config.rs). -/
inductive RestartPolicy where
  | always
  | onFailure
  | never
deriving DecidableEq, Repr

/-- `ServiceProcess` (config.rs lines 212-232); the TUI-only `width` field is
omitted. -/
structure ServiceProcess where
  name : String
  command : String
  cwd : String
  restart : RestartPolicy
  stop_command : Option String
  agent : Option String
  prompt : Option String
  agent_mode : String
  agent_model : Option String
  agent_permissions : String
deriving DecidableEq, Repr

/-- `FULL_TOOLS` (agent.rs line 3). -/
def FULL_TOOLS : String := "Bash,Read,Edit,Write,Glob,Grep,WebFetch,WebSearch,NotebookEdit,Task"

/-- `SAFE_TOOLS` (agent.rs line 4). -/
def SAFE_TOOLS : String := "Read,Glob,Grep,WebFetch,WebSearch"

/-- Replace every single quote by the four characters quote backslash quote
quote, as Rust's `s.replace('\'', "'\\''")` does. -/
def escapeQuoteChars : List Char → List Char
  | [] => []
  | c :: rest =>
    if c = '\'' then '\'' :: '\\' :: '\'' :: '\'' :: escapeQuoteChars rest
    else c :: escapeQuoteChars rest

/-- `shell_escape` (agent.rs lines 83-85 and commander.rs lines 358-360):
wrap in single quotes, escaping embedded single quotes as quote backslash
quote quote. -/
def shell_escape (s : String) : String :=
  "'" ++ String.mk (escapeQuoteChars s.data) ++ "'"

/-- The system-context block of `build_agent_command` (agent.rs lines 14-18). -/
def agent_system_context (project_name : String) : String :=
  "You are working on drift project '" ++ project_name ++ "'.\n\nUse `drift notify --type agent.completed --title \"<summary>\"` when you finish significant work.\nUse `drift notify --type agent.error --title \"<summary>\"` when you hit errors."

/-- `build_agent_command` (agent.rs lines 8-76).  The Rust `match (agent,
svc.agent_mode.as_str())` is rendered as the equivalent comparison chain; the
`push_str` sequences on string literals are folded into the literals they
produce.  The source `expect`s that `agent` is set; callers only invoke it for
agent services, so the `None` case is mapped to the empty agent name. -/
def build_agent_command (svc : ServiceProcess) (project_name : String) : String :=
  let agent := svc.agent.getD ""
  let raw_prompt := svc.prompt.getD "You are an AI assistant."
  let full : Bool := svc.agent_permissions == "full"
  let system_context := agent_system_context project_name
  let escaped_context := shell_escape system_context
  let escaped_task := shell_escape raw_prompt
  if agent = "claude" ∧ svc.agent_mode = "oneshot" then
    -- Oneshot: -p mode, task goes as positional arg
    let escaped_full := shell_escape (system_context ++ "\n\n" ++ raw_prompt)
    let cmd := if full then "claude -p --dangerously-skip-permissions"
               else "claude -p --allowedTools '" ++ SAFE_TOOLS ++ "'"
    let cmd := match svc.agent_model with
               | some model => cmd ++ " --model " ++ model
               | none => cmd
    cmd ++ " " ++ escaped_full
  else if agent = "claude" ∧ svc.agent_mode = "interactive" then
    -- Interactive: positional arg auto-submits as first message in TUI
    let tools := if full then FULL_TOOLS else SAFE_TOOLS
    let cmd := "claude --allowedTools '" ++ tools ++ "'"
    let cmd := match svc.agent_model with
               | some model => cmd ++ " --model " ++ model
               | none => cmd
    cmd ++ " --append-system-prompt " ++ escaped_context ++ " " ++ escaped_task
  else if agent = "codex" ∧ svc.agent_mode = "oneshot" then
    let escaped_full := shell_escape (system_context ++ "\n\n" ++ raw_prompt)
    let cmd := if full then "codex exec -s danger-full-access" else "codex exec"
    let cmd := match svc.agent_model with
               | some model => cmd ++ " -m " ++ model
               | none => cmd
    cmd ++ " " ++ escaped_full
  else if agent = "codex" ∧ svc.agent_mode = "interactive" then
    let escaped_full := shell_escape (system_context ++ "\n\n" ++ raw_prompt)
    let cmd := if full then "codex -s danger-full-access" else "codex"
    let cmd := match svc.agent_model with
               | some model => cmd ++ " -m " ++ model
               | none => cmd
    cmd ++ " " ++ escaped_full
  else
    let escaped_full := shell_escape (system_context ++ "\n\n" ++ raw_prompt)
    agent ++ " " ++ escaped_full

/-- `is_interactive_agent` (agent.rs lines 79-81). -/
def is_interactive_agent (svc : ServiceProcess) : Bool :=
  svc.agent.isSome && svc.agent_mode == "interactive"

/-! ## Process supervisor (drift-core/src/supervisor.rs) -/

/-- `ServiceStatus` (supervisor.rs lines 41-48). -/
inductive ServiceStatus where
  | running
  | stopped
  | failed
  | backoff
deriving DecidableEq, Repr

/-- The `should_restart` computation (supervisor.rs lines 186-190). -/
def shouldRestart (policy : RestartPolicy) (exitSuccess : Bool) : Bool :=
  match policy with
  | .always => true
  | .onFailure => !exitSuccess
  | .never => false

/-- The backoff update `(backoff * 2).max(1s).min(30s)` (supervisor.rs lines
198-200), in milliseconds. -/
def nextBackoff (backoffMs : Nat) : Nat :=
  ((backoffMs * 2).max 1000).min 30000

/-- Backoff after `n` consecutive fast crashes, starting from the initial zero
(supervisor.rs line 144). -/
def backoffSeq : Nat → Nat
  | 0 => 0
  | n + 1 => nextBackoff (backoffSeq n)

/-- Outcome of the running-child-exited branch of the supervisor loop
(supervisor.rs lines 180-261), carrying the service's new backoff duration.
`respawn` is the lived-at-least-5-s restart path, which resets backoff to zero
before spawning (supervisor.rs line 203). -/
inductive ExitOutcome where
  | enterBackoff (newBackoffMs : Nat)
  | respawn (newBackoffMs : Nat)
  | stopped
  | failed
deriving DecidableEq, Repr

/-- The child-exit decision of the supervisor loop (supervisor.rs lines
186-261): policies decide restart; a restartable child that lived under 5
seconds doubles-and-clamps its backoff and enters the backoff state; one that
lived at least 5 seconds resets backoff to zero and is respawned at once. -/
def handleChildExit (policy : RestartPolicy) (exitSuccess : Bool)
    (ranForMs backoffMs : Nat) : ExitOutcome :=
  if shouldRestart policy exitSuccess then
    if ranForMs < 5000 then .enterBackoff (nextBackoff backoffMs)
    else .respawn 0
  else if exitSuccess then .stopped
  else .failed

/-- `ManagedService` (supervisor.rs lines 52-63).  Instants are 500 ms loop
ticks (the supervisor sleeps 500 ms per iteration, supervisor.rs line 323);
`hasChild` models `child.is_some()`, `exitSuccess` the success bit of
`exit_code`, `backoffMs` the backoff duration in milliseconds. -/
structure ManagedService where
  config : ServiceProcess
  hasChild : Bool
  status : ServiceStatus
  restart_count : Nat
  startedAtTick : Option Nat
  lastExitTick : Option Nat
  exitSuccess : Option Bool
  backoffMs : Nat
deriving DecidableEq, Repr

/-- What `child.try_wait()` reports for one service at one tick. -/
inductive ChildObs where
  | stillRunning
  | exited (success : Bool)
  | waitErr
deriving DecidableEq, Repr

/-- The supervisor's environment: child observations per (service index, tick),
spawn success per (service name, tick), and the `SHUTDOWN` flag per tick. -/
structure SupWorld where
  obs : Nat → Nat → ChildObs
  spawnOk : String → Nat → Bool
  shutdownAt : Nat → Bool

/-- One service's record in the `ServicesState` file, restricted to the fields
the claims consult (`write_state`, supervisor.rs lines 442-466). -/
structure ServiceStateRec where
  name : String
  status : ServiceStatus
  restart_count : Nat
deriving DecidableEq, Repr

/-- The `ServicesState` payload written by `write_state`. -/
def writeStateRecs (svcs : List ManagedService) : List ServiceStateRec :=
  svcs.map fun s => { name := s.config.name, status := s.status, restart_count := s.restart_count }

/-- The two files of supervisor-observable filesystem state: the supervisor
PID file and the last-written `ServicesState` file. -/
structure SupFS where
  pid_file : Bool
  services_state : Option (List ServiceStateRec)
deriving DecidableEq, Repr

/-- One service's step of the supervisor loop body (supervisor.rs lines
175-310): poll a running child, apply the restart policy and backoff rule on
exit, respawn out of backoff once the wall time since last exit reaches the
backoff duration.  Returns the service and whether its state changed. -/
def stepService (w : SupWorld) (t idx : Nat) (svc : ManagedService) :
    ManagedService × Bool :=
  match svc.status with
  | .running =>
    if svc.hasChild then
      match w.obs idx t with
      | .stillRunning => (svc, false)
      | .exited success =>
        let base : ManagedService :=
          { svc with hasChild := false, exitSuccess := some success, lastExitTick := some t }
        if shouldRestart svc.config.restart success then
          let ranForMs := match svc.startedAtTick with
                          | some s => (t - s) * 500
                          | none => 0
          if ranForMs < 5000 then
            ({ base with backoffMs := nextBackoff svc.backoffMs, status := .backoff }, true)
          else if w.spawnOk svc.config.name t then
            ({ base with backoffMs := 0, status := .running, restart_count := svc.restart_count + 1, hasChild := true, startedAtTick := some t }, true)
          else
            ({ base with backoffMs := 0, status := .failed }, true)
        else if success then ({ base with status := .stopped }, true)
        else ({ base with status := .failed }, true)
      | .waitErr => ({ svc with hasChild := false, status := .failed }, true)
    else (svc, false)
  | .backoff =>
    let elapsed : Bool := match svc.lastExitTick with
                          | some le => decide (svc.backoffMs ≤ (t - le) * 500)
                          | none => true
    if elapsed then
      if w.spawnOk svc.config.name t then
        ({ svc with status := .running, restart_count := svc.restart_count + 1, hasChild := true, startedAtTick := some t }, true)
      else ({ svc with status := .failed }, true)
    else (svc, false)
  | .stopped => (svc, false)
  | .failed => (svc, false)

/-- The loop body's sweep over all services (supervisor.rs lines 175-310),
collecting whether any state changed. -/
def supStepAll (w : SupWorld) (t : Nat) (svcs : List ManagedService) :
    List ManagedService × Bool :=
  let results := svcs.enum.map fun p => stepService w t p.1 p.2
  (results.map Prod.fst, results.any Prod.snd)

/-- A terminal service: `stopped` or `failed` (supervisor.rs lines 316-321). -/
def isTerminal (s : ManagedService) : Bool :=
  s.status = ServiceStatus.stopped ∨ s.status = ServiceStatus.failed

/-- `graceful_shutdown` (supervisor.rs lines 385-438): stop or kill every
child (invisible to the modelled filesystem), mark every service `stopped`,
rewrite the state file, and remove the supervisor PID file. -/
def gracefulShutdown (svcs : List ManagedService) : List ManagedService × SupFS :=
  let svcs := svcs.map fun s => { s with hasChild := false, status := ServiceStatus.stopped }
  (svcs, { pid_file := false, services_state := some (writeStateRecs svcs) })

/-- Why `run_supervisor` returned. -/
inductive SupExit where
  | signaled
  | allTerminal
  | noServices
  | outOfFuel
deriving DecidableEq, Repr

/-- The supervisor main loop (supervisor.rs lines 167-324): check `SHUTDOWN`;
on a signal run `graceful_shutdown` and break; otherwise step every service,
rewrite the state file if anything changed, and break when every service is
terminal.  `fuel` bounds the number of iterations of the unbounded source
loop; `t` is the tick counter. -/
def supLoop (w : SupWorld) : Nat → Nat → List ManagedService → SupFS →
    List ManagedService × SupFS × SupExit
  | 0, _, svcs, fs => (svcs, fs, .outOfFuel)
  | fuel + 1, t, svcs, fs =>
    if w.shutdownAt t then
      let g := gracefulShutdown svcs
      (g.1, g.2, .signaled)
    else
      let p := supStepAll w t svcs
      let fs' := if p.2 then { fs with services_state := some (writeStateRecs p.1) } else fs
      if p.1.all isTerminal then (p.1, fs', .allTerminal)
      else supLoop w fuel (t + 1) p.1 fs'

/-- The startup spawn pass (supervisor.rs lines 118-163): a spawn failure is
recorded as `failed` and the supervisor continues with the siblings. -/
def initialSpawn (w : SupWorld) (procs : List ServiceProcess) : List ManagedService :=
  procs.map fun proc =>
    if w.spawnOk proc.name 0 then
      { config := proc, hasChild := true, status := .running, restart_count := 0,
        startedAtTick := some 0, lastExitTick := none, exitSuccess := none, backoffMs := 0 }
    else
      { config := proc, hasChild := false, status := .failed, restart_count := 0,
        startedAtTick := none, lastExitTick := none, exitSuccess := none, backoffMs := 0 }

/-- `run_supervisor` (supervisor.rs lines 87-327) restricted to its
filesystem-observable behaviour: write the PID file; filter out interactive
agents and return immediately when no supervisable service remains (also when
none was configured); otherwise spawn, write the first state file, and run the
loop. -/
def runSupervisor (w : SupWorld) (fuel : Nat) (processes : List ServiceProcess)
    (fs0 : SupFS) : List ManagedService × SupFS × SupExit :=
  let fs1 : SupFS := { fs0 with pid_file := true }
  let procs := processes.filter fun s => !is_interactive_agent s
  if procs.isEmpty then ([], fs1, .noServices)
  else
    let services := initialSpawn w procs
    let fs2 : SupFS := { fs1 with services_state := some (writeStateRecs services) }
    supLoop w fuel 0 services fs2

/-! ## Concrete inputs used by the scenario theorems and the witnesses -/

/-- Comma-split of a tool list, for comparing the tool strings as sets. -/
def splitCommasAux : List Char → List Char → List String
  | [], acc => [String.mk acc.reverse]
  | c :: rest, acc =>
    if c = ',' then String.mk acc.reverse :: splitCommasAux rest []
    else splitCommasAux rest (c :: acc)

/-- The comma-separated tokens of a tool string. -/
def commaTokens (s : String) : List String :=
  splitCommasAux s.data []

/-- A service descriptor naming an agent the table does not know. -/
def c4svc : ServiceProcess :=
  { name := "agent", command := "", cwd := ".", restart := .never, stop_command := none,
    agent := some "aider", prompt := some "Fix bugs", agent_mode := "oneshot",
    agent_model := none, agent_permissions := "full" }

/-- A priority is one of the five classification values. -/
def validPriority (e : Event) : Prop :=
  e.priority = some "silent" ∨ e.priority = some "low" ∨ e.priority = some "medium" ∨
    e.priority = some "high" ∨ e.priority = some "critical"

/-- Every ring buffer of a daemon state holds only validly classified events. -/
def ringsValid (events : List (String × List Event)) : Prop :=
  ∀ p buf, alistGet events p = some buf → ∀ ev ∈ buf, validPriority ev

/-- The event of the C6 witness: an emitter-set bogus priority is overwritten. -/
def c6e : Event :=
  { event_type := "test", project := "alpha", source := "cli", ts := "",
    level := some "error", title := none, body := none, meta := none,
    priority := some "bogus" }

/-- The speakable event of the announcer cooldown scenario. -/
def c3event : Event :=
  { event_type := "agent.completed", project := "proj", source := "agent", ts := "",
    level := none, title := none, body := none, meta := none, priority := none }

/-- The cooldown scenario's read-loop schedule: one `agent.completed` for one
key at t = 0, 1, 2, 3, 4 and 6 seconds (instants in milliseconds). -/
def c3sched : List (Nat × Option Event) :=
  [(0, some c3event), (1000, some c3event), (2000, some c3event),
   (3000, some c3event), (4000, some c3event), (6000, some c3event)]

/-- One event of the C7 replay scenario, identified by its type tag. -/
def c7event (t : String) : Event :=
  { event_type := t, project := "p", source := "s", ts := "", level := some "info",
    title := none, body := none, meta := none, priority := none }

/-- The eight events stored for project `p` in the C7 replay scenario. -/
def c7events : List Event :=
  [c7event "e1", c7event "e2", c7event "e3", c7event "e4", c7event "e5",
   c7event "e6", c7event "e7", c7event "e8"]

/-- The C8 counterexample event: its free-form `meta` field holds JSON null. -/
def c8e : Event :=
  { event_type := "t", project := "p", source := "s", ts := "2026-01-01T00:00:00Z",
    level := none, title := none, body := none, meta := some Json.null, priority := none }

/-- The C8 witness event: all optional fields populated, `meta` not null. -/
def c8w : Event :=
  { event_type := "build.complete", project := "myapp", source := "ci",
    ts := "2026-01-15T10:30:00Z", level := some "info", title := some "Build",
    body := some "ok", meta := some (Json.obj [("duration_ms", Json.num 1234)]),
    priority := some "high" }

/-! ## Theorems -/

theorem alistGet_set_self {α β : Type} [DecidableEq α] (l : List (α × β)) (k : α) (v : β) :
    alistGet (alistSet l k v) k = some v := by
  induction l with
  | nil => simp [alistGet, alistSet]
  | cons hd tl ih =>
    obtain ⟨k', v'⟩ := hd
    by_cases h : k' = k
    · simp [alistGet, alistSet, h]
    · simp [alistGet, alistSet, h, ih]

theorem alistGet_set_ne {α β : Type} [DecidableEq α] (l : List (α × β)) (k k' : α) (v : β)
    (h : k ≠ k') : alistGet (alistSet l k v) k' = alistGet l k' := by
  induction l with
  | nil => simp [alistGet, alistSet, h]
  | cons hd tl ih =>
    obtain ⟨ka, va⟩ := hd
    by_cases hk : ka = k
    · subst hk
      simp [alistGet, alistSet, h]
    · simp only [alistSet, if_neg hk]
      by_cases hk' : ka = k'
      · simp [alistGet, hk']
      · simp [alistGet, hk', ih]

theorem classifyPriority_eq_spec (a : Option String) (e : Event) :
    classifyPriority a e = spec_priority a e.project e.level := by
  unfold classifyPriority spec_priority
  by_cases hA : a = some e.project
  · simp only [hA, beq_self_eq_true, if_pos rfl, if_true]
    cases hl : e.level with
    | none => simp
    | some l =>
      by_cases h1 : l = "error"
      · simp [h1]
      · by_cases h2 : l = "success"
        · simp [h1, h2]
        · by_cases h3 : l = "warning"
          · simp [h1, h2, h3]
          · simp [h1, h2, h3]
  · have hb : (a == some e.project) = false := by
      simp [beq_eq_false_iff_ne, hA]
    simp only [hb, if_neg hA, Bool.false_eq_true, if_false]
    cases hl : e.level with
    | none => simp
    | some l =>
      by_cases h1 : l = "error"
      · simp [h1]
      · by_cases h2 : l = "success"
        · simp [h1, h2]
        · simp [h1, h2]

/-- C1: the priority the daemon's state owner writes into `event.priority` is a
pure function of the active project, the event's project and its level, equal
to the spec's table (`spec_priority`), and it overwrites whatever priority the
emitter set: the event stored and fanned out by `process_event` is exactly the
input event with `priority` replaced by the table value. -/
theorem c1_priority_classification (st : DaemonSt) (e : Event) :
    (processEvent st e).2 =
      { e with priority := some (spec_priority st.active_project e.project e.level) } := by
  unfold processEvent
  simp [classifyPriority_eq_spec]

/-- C2: a supervised child that exits after living under 5 seconds and should
restart gets backoff `max(1s, min(30s, 2 × old))` and enters the backoff
state; one that lived at least 5 seconds has its backoff reset to 0; and the
resulting backoff sequence for a service that always crashes fast is exactly
1 s, 2 s, 4 s, 8 s, 16 s, then 30 s forever. -/
theorem c2_backoff_discipline (policy : RestartPolicy) (success : Bool)
    (ranForMs backoffMs : Nat) (h : shouldRestart policy success = true) :
    (ranForMs < 5000 →
      handleChildExit policy success ranForMs backoffMs =
        ExitOutcome.enterBackoff (Nat.max 1000 (Nat.min 30000 (2 * backoffMs))))
    ∧ (5000 ≤ ranForMs →
      handleChildExit policy success ranForMs backoffMs = ExitOutcome.respawn 0)
    ∧ (List.range 8).map (fun n => backoffSeq (n + 1)) =
        [1000, 2000, 4000, 8000, 16000, 30000, 30000, 30000] := by
  refine ⟨fun hlt => ?_, fun hge => ?_, by decide⟩
  · have hmm : nextBackoff backoffMs = Nat.max 1000 (Nat.min 30000 (2 * backoffMs)) := by
      unfold nextBackoff
      simp only [Nat.min_def, Nat.max_def]
      split_ifs <;> omega
    simp [handleChildExit, h, hlt, hmm]
  · simp [handleChildExit, h, Nat.not_lt.mpr hge]

theorem c2_backoff_discipline_witness :
    shouldRestart RestartPolicy.always false = true ∧
    handleChildExit RestartPolicy.always false 1000 4000 =
      ExitOutcome.enterBackoff (Nat.max 1000 (Nat.min 30000 (2 * 4000))) :=
  ⟨rfl, (c2_backoff_discipline RestartPolicy.always false 1000 4000 rfl).1 (by decide)⟩

/-- C4: the synthesized agent shell command conforms to the normative table:
claude oneshot begins `claude -p --dangerously-skip-permissions` (full) or
`claude -p --allowedTools '<SAFE>'` (safe); claude interactive begins
`claude --allowedTools '<FULL>'` (full) or `'<SAFE>'` (safe) and places the
prompt as `--append-system-prompt <ctx> <task>`; codex oneshot begins
`codex exec -s danger-full-access` (full) or `codex exec` (safe); codex
interactive begins `codex -s danger-full-access` (full) or `codex` (safe);
the FULL tool set is the SAFE set plus Bash, Edit, Write, NotebookEdit, Task;
an unknown agent maps to `<agent> '<combined-prompt>'`; and prompts are
single-quote-escaped with each quote becoming quote-backslash-quote-quote. -/
theorem c4_agent_command_table (svc : ServiceProcess) (p : String) :
    (svc.agent = some "claude" → svc.agent_mode = "oneshot" → svc.agent_permissions = "full" →
      ∃ rest, build_agent_command svc p = "claude -p --dangerously-skip-permissions" ++ rest)
  ∧ (svc.agent = some "claude" → svc.agent_mode = "oneshot" → svc.agent_permissions = "safe" →
      ∃ rest, build_agent_command svc p =
        "claude -p --allowedTools '" ++ SAFE_TOOLS ++ "'" ++ rest)
  ∧ (svc.agent = some "claude" → svc.agent_mode = "interactive" → svc.agent_permissions = "full" →
      ∃ mid, build_agent_command svc p =
        "claude --allowedTools '" ++ FULL_TOOLS ++ "'" ++ mid ++
        " --append-system-prompt " ++ shell_escape (agent_system_context p) ++ " " ++
        shell_escape (svc.prompt.getD "You are an AI assistant."))
  ∧ (svc.agent = some "claude" → svc.agent_mode = "interactive" → svc.agent_permissions = "safe" →
      ∃ mid, build_agent_command svc p =
        "claude --allowedTools '" ++ SAFE_TOOLS ++ "'" ++ mid ++
        " --append-system-prompt " ++ shell_escape (agent_system_context p) ++ " " ++
        shell_escape (svc.prompt.getD "You are an AI assistant."))
  ∧ (svc.agent = some "codex" → svc.agent_mode = "oneshot" → svc.agent_permissions = "full" →
      ∃ rest, build_agent_command svc p = "codex exec -s danger-full-access" ++ rest)
  ∧ (svc.agent = some "codex" → svc.agent_mode = "oneshot" → svc.agent_permissions = "safe" →
      ∃ mid, build_agent_command svc p = "codex exec" ++ mid ++ " " ++
        shell_escape (agent_system_context p ++ "\n\n" ++
          svc.prompt.getD "You are an AI assistant."))
  ∧ (svc.agent = some "codex" → svc.agent_mode = "interactive" → svc.agent_permissions = "full" →
      ∃ rest, build_agent_command svc p = "codex -s danger-full-access" ++ rest)
  ∧ (svc.agent = some "codex" → svc.agent_mode = "interactive" → svc.agent_permissions = "safe" →
      ∃ mid, build_agent_command svc p = "codex" ++ mid ++ " " ++
        shell_escape (agent_system_context p ++ "\n\n" ++
          svc.prompt.getD "You are an AI assistant."))
  ∧ (∀ a, svc.agent = some a → a ≠ "claude" → a ≠ "codex" →
      build_agent_command svc p = a ++ " " ++ shell_escape (agent_system_context p ++ "\n\n" ++
        svc.prompt.getD "You are an AI assistant."))
  ∧ (commaTokens FULL_TOOLS).Perm
      (commaTokens SAFE_TOOLS ++ ["Bash", "Edit", "Write", "NotebookEdit", "Task"])
  ∧ shell_escape "it's" = "'it'\\''s'" := by
  refine ⟨?_, ?_, ?_, ?_, ?_, ?_, ?_, ?_, ?_, by decide, rfl⟩
  · intro h1 h2 h3
    simp only [build_agent_command, h1, h2, h3, Option.getD_some]
    rcases svc.agent_model with _ | m
    · exact ⟨" " ++ shell_escape (agent_system_context p ++ "\n\n" ++
        svc.prompt.getD "You are an AI assistant."), rfl⟩
    · exact ⟨" --model " ++ m ++ " " ++ shell_escape (agent_system_context p ++ "\n\n" ++
        svc.prompt.getD "You are an AI assistant."), rfl⟩
  · intro h1 h2 h3
    simp only [build_agent_command, h1, h2, h3, Option.getD_some]
    rcases svc.agent_model with _ | m
    · exact ⟨" " ++ shell_escape (agent_system_context p ++ "\n\n" ++
        svc.prompt.getD "You are an AI assistant."), rfl⟩
    · exact ⟨" --model " ++ m ++ " " ++ shell_escape (agent_system_context p ++ "\n\n" ++
        svc.prompt.getD "You are an AI assistant."), rfl⟩
  · intro h1 h2 h3
    simp only [build_agent_command, h1, h2, h3, Option.getD_some]
    rcases svc.agent_model with _ | m
    · exact ⟨"", rfl⟩
    · exact ⟨" --model " ++ m, rfl⟩
  · intro h1 h2 h3
    simp only [build_agent_command, h1, h2, h3, Option.getD_some]
    rcases svc.agent_model with _ | m
    · exact ⟨"", rfl⟩
    · exact ⟨" --model " ++ m, rfl⟩
  · intro h1 h2 h3
    simp only [build_agent_command, h1, h2, h3, Option.getD_some]
    rcases svc.agent_model with _ | m
    · exact ⟨" " ++ shell_escape (agent_system_context p ++ "\n\n" ++
        svc.prompt.getD "You are an AI assistant."), rfl⟩
    · exact ⟨" -m " ++ m ++ " " ++ shell_escape (agent_system_context p ++ "\n\n" ++
        svc.prompt.getD "You are an AI assistant."), rfl⟩
  · intro h1 h2 h3
    simp only [build_agent_command, h1, h2, h3, Option.getD_some]
    rcases svc.agent_model with _ | m
    · exact ⟨"", rfl⟩
    · exact ⟨" -m " ++ m, rfl⟩
  · intro h1 h2 h3
    simp only [build_agent_command, h1, h2, h3, Option.getD_some]
    rcases svc.agent_model with _ | m
    · exact ⟨" " ++ shell_escape (agent_system_context p ++ "\n\n" ++
        svc.prompt.getD "You are an AI assistant."), rfl⟩
    · exact ⟨" -m " ++ m ++ " " ++ shell_escape (agent_system_context p ++ "\n\n" ++
        svc.prompt.getD "You are an AI assistant."), rfl⟩
  · intro h1 h2 h3
    simp only [build_agent_command, h1, h2, h3, Option.getD_some]
    rcases svc.agent_model with _ | m
    · exact ⟨"", rfl⟩
    · exact ⟨" -m " ++ m, rfl⟩
  · intro a h1 h2 h3
    simp only [build_agent_command, h1, Option.getD_some]
    simp [h2, h3]

theorem c4_agent_command_table_witness :
    build_agent_command c4svc "myapp" =
      "aider" ++ " " ++ shell_escape (agent_system_context "myapp" ++ "\n\n" ++ "Fix bugs") :=
  (c4_agent_command_table c4svc "myapp").2.2.2.2.2.2.2.2.1 "aider" rfl (by decide) (by decide)

/-- C5: a line on the emit intake socket that parses as an `Event` is forwarded
with `ts` replaced by the intake timestamp exactly when it was empty and
`level` defaulted to `Some "info"` exactly when it was absent, all other
fields unchanged; a line that is not valid JSON for an `Event` contributes
nothing and does not disturb the handling of the lines around it. -/
theorem c5_emit_intake (now : String) (j : Json) (e : Event)
    (h : eventFromJson j = some e) (bad : Option Json)
    (hbad : emitHandleLine now bad = none) (l1 l2 : List (Option Json)) :
    (emitHandleLine now (some j) = some (stampEvent now e))
  ∧ (e.ts = "" → (stampEvent now e).ts = now)
  ∧ (e.ts ≠ "" → (stampEvent now e).ts = e.ts)
  ∧ (e.level = none → (stampEvent now e).level = some "info")
  ∧ (∀ l, e.level = some l → (stampEvent now e).level = some l)
  ∧ ((stampEvent now e).event_type = e.event_type ∧ (stampEvent now e).project = e.project
      ∧ (stampEvent now e).source = e.source ∧ (stampEvent now e).title = e.title
      ∧ (stampEvent now e).body = e.body ∧ (stampEvent now e).meta = e.meta
      ∧ (stampEvent now e).priority = e.priority)
  ∧ emitProcessLines now (l1 ++ bad :: l2) =
      emitProcessLines now l1 ++ emitProcessLines now l2 := by
  refine ⟨?_, ?_, ?_, ?_, ?_, ?_, ?_⟩
  · simp [emitHandleLine, h]
  · intro hts
    simp [stampEvent, hts]
  · intro hts
    simp [stampEvent, hts]
  · intro hlv
    simp [stampEvent, hlv]
  · intro l hlv
    simp [stampEvent, hlv]
  · simp [stampEvent]
  · simp [emitProcessLines, List.filterMap_append, List.filterMap_cons, hbad]

theorem c5_emit_intake_witness :
    (stampEvent "2026-01-01T00:00:00Z"
      { event_type := "t", project := "p", source := "s", ts := "", level := none,
        title := none, body := none, meta := none, priority := none }).ts =
    "2026-01-01T00:00:00Z" :=
  (c5_emit_intake "2026-01-01T00:00:00Z"
    (Json.obj [("type", Json.str "t"), ("project", Json.str "p"),
               ("source", Json.str "s"), ("ts", Json.str "")])
    { event_type := "t", project := "p", source := "s", ts := "", level := none,
      title := none, body := none, meta := none, priority := none }
    rfl none rfl [] []).2.1 rfl

theorem classifyPriority_valid (a : Option String) (e : Event) :
    classifyPriority a e = "silent" ∨ classifyPriority a e = "low" ∨
    classifyPriority a e = "medium" ∨ classifyPriority a e = "high" ∨
    classifyPriority a e = "critical" := by
  unfold classifyPriority
  dsimp only
  split_ifs <;> simp

theorem processEvent_sent_valid (st : DaemonSt) (e : Event) :
    validPriority (processEvent st e).2 := by
  have h := classifyPriority_valid st.active_project e
  unfold processEvent validPriority
  dsimp only
  rcases h with h | h | h | h | h <;> rw [h] <;> simp

theorem mem_ringPush {α : Type} (size : Nat) (b : List α) (x y : α)
    (h : y ∈ ringPush size b x) : y ∈ b ∨ y = x := by
  unfold ringPush at h
  dsimp only at h
  split at h
  · have := List.mem_of_mem_drop h
    rcases List.mem_append.mp this with hb | hx
    · exact Or.inl hb
    · exact Or.inr (List.mem_singleton.mp hx)
  · rcases List.mem_append.mp h with hb | hx
    · exact Or.inl hb
    · exact Or.inr (List.mem_singleton.mp hx)

theorem mem_foldl_ringPush {α : Type} (k : Nat) (xs : List α) :
    ∀ (b : List α) (y : α), y ∈ xs.foldl (ringPush k) b → y ∈ b ∨ y ∈ xs := by
  induction xs with
  | nil => intro b y h; exact Or.inl h
  | cons x rest ih =>
    intro b y h
    rcases ih (ringPush k b x) y h with hb | hr
    · rcases mem_ringPush k b x y hb with hb' | hx
      · exact Or.inl hb'
      · exact Or.inr (by simp [hx])
    · exact Or.inr (List.mem_cons_of_mem _ hr)

theorem processEvent_rings_valid (st : DaemonSt) (e : Event)
    (h : ringsValid st.events) : ringsValid (processEvent st e).1.events := by
  intro p buf hbuf ev hev
  unfold processEvent at hbuf
  dsimp only at hbuf
  by_cases hp : e.project = p
  · rw [← hp, alistGet_set_self] at hbuf
    obtain rfl : ringPush st.buffer_size
        ((alistGet st.events e.project).getD [])
        { e with priority := some (classifyPriority st.active_project e) } = buf :=
      Option.some.inj hbuf
    rcases mem_ringPush _ _ _ _ hev with hold | hnew
    · rcases hg : alistGet st.events e.project with _ | b0
      · rw [hg] at hold; simp at hold
      · rw [hg] at hold
        exact h e.project b0 hg ev hold
    · subst hnew
      exact processEvent_sent_valid st e
  · rw [alistGet_set_ne _ _ _ _ hp] at hbuf
    exact h p buf hbuf ev hev

theorem daemonRun_valid (es : List Event) :
    ∀ st : DaemonSt, ringsValid st.events →
      ringsValid (daemonRun st es).1.events ∧
      ∀ ev ∈ (daemonRun st es).2, validPriority ev := by
  induction es with
  | nil => intro st h; exact ⟨h, by simp [daemonRun]⟩
  | cons e rest ih =>
    intro st h
    obtain ⟨ha, hb⟩ := ih (processEvent st e).1 (processEvent_rings_valid st e h)
    refine ⟨by simpa [daemonRun] using ha, ?_⟩
    intro ev hev
    simp only [daemonRun, List.mem_cons] at hev
    rcases hev with rfl | hev
    · exact processEvent_sent_valid st e
    · exact hb ev hev

/-- C6: starting from any daemon state whose rings hold only classified events
(in particular the empty initial state), after processing any sequence of
events — externally emitted or internally synthesized, with arbitrary and even
nonsensical incoming `priority` fields — every event held in a per-project
ring, every event sent to the subscriber fan-out channel, and every event in
the subscriber manager's replay buffer (of any capacity) has `priority =
Some p` with `p` one of silent, low, medium, high, critical, never `None`,
because classification runs inside `process_event` before storage and
fan-out on every path. -/
theorem c6_priority_invariant (st : DaemonSt) (es : List Event)
    (h : ringsValid st.events) :
    ringsValid (daemonRun st es).1.events
  ∧ (∀ ev ∈ (daemonRun st es).2, validPriority ev)
  ∧ (∀ k : Nat, ∀ ev ∈ (daemonRun st es).2.foldl (ringPush k) [], validPriority ev) := by
  obtain ⟨ha, hb⟩ := daemonRun_valid es st h
  refine ⟨ha, hb, ?_⟩
  intro k ev hev
  rcases mem_foldl_ringPush k _ [] ev hev with hnil | hmem
  · simp at hnil
  · exact hb ev hmem

theorem c6_priority_invariant_witness :
    validPriority { c6e with priority := some "critical" } :=
  (c6_priority_invariant { active_project := some "alpha", events := [], buffer_size := 200 }
    [c6e] (fun _ _ h => nomatch h)).2.1 _ (List.mem_singleton_self _)

/-- C3, counterexample: with `cooldown_sec = 5` and one `agent.completed` key
arriving at t = 0, 1, 2, 3, 4, 6 s, the announcer does NOT produce, after the
t=0 utterance, exactly one further utterance "proj: 4 more agent.completed
events": the accumulated window count is 5 (it includes the event spoken at
t=0), and the t=6 event is additionally spoken normally after the expired
window is flushed. -/
theorem c3_cooldown_counterexample :
    (commanderLoop (CooldownTracker.new 5) c3sched).2 ≠
      ["proj: agent finished — agent.completed",
       "proj: 4 more agent.completed events"] := by decide

theorem foldl_ringPush_eq_drop {α : Type} (n : Nat) :
    ∀ (xs acc : List α), acc.length ≤ n →
      xs.foldl (ringPush n) acc = (acc ++ xs).drop (acc.length + xs.length - n) := by
  intro xs
  induction xs with
  | nil =>
    intro acc h
    simp [Nat.sub_eq_zero_of_le h]
  | cons x rest ih =>
    intro acc h
    rw [List.foldl_cons]
    have h2 : acc ++ x :: rest = (acc ++ [x]) ++ rest := by simp
    by_cases hlen : n < (acc ++ [x]).length
    · have hacc : acc.length = n := by
        simp at hlen
        omega
      have hdrop : ringPush n acc x = (acc ++ [x]).drop 1 := by
        unfold ringPush
        simp only [if_pos hlen]
      rw [hdrop, ih _ (by simp [hacc])]
      have h1 : ((acc ++ [x]).drop 1).length = n := by simp [hacc]
      rw [h1]
      have e1 : n + rest.length - n = rest.length := by omega
      have e2 : acc.length + (x :: rest).length - n = 1 + rest.length := by
        simp only [List.length_cons, hacc]
        omega
      rw [e1, e2, h2, ← List.drop_drop]
      congr 1
      cases acc <;> simp
    · have hl : (acc ++ [x]).length ≤ n := Nat.le_of_not_lt hlen
      have hdrop : ringPush n acc x = acc ++ [x] := by
        unfold ringPush
        simp only [if_neg hlen]
      rw [hdrop, ih _ hl, h2]
      have e3 : (acc ++ [x]).length + rest.length - n =
          acc.length + (x :: rest).length - n := by
        simp only [List.length_append, List.length_cons, List.length_nil]
        omega
      rw [e3]

/-- C3, amended: in the scenario above the t=0 event is spoken immediately and
opens a 5 s window with count 1; the four events inside the window are
suppressed, each incrementing the count (to 5); and the t=6 arrival produces
TWO utterances: the batch line "proj: 5 more agent.completed events" — whose
count is the full accumulated count including the initially spoken event,
emitted when the expired window is flushed at the top of the read-loop
iteration — followed by the normal utterance for the t=6 event itself, which
opens a new window with count = 1. -/
theorem c3_cooldown_amended :
    commanderLoop (CooldownTracker.new 5) c3sched =
      ({ entries := [(("proj", "agent.completed"), { count := 1, expires := 11000 })],
         cooldown := 5000 },
       ["proj: agent finished — agent.completed",
        "proj: 5 more agent.completed events",
        "proj: agent finished — agent.completed"]) := by decide

/-- C7, counterexample: with per-project ring size 5 (`events.buffer_size`),
the default replay count 20 (`events.replay_on_subscribe`), and eight events
processed for project `p`, the daemon's ring indeed retains events 4..8, but a
subscriber connecting afterwards is replayed from the subscriber manager's own
cross-project replay buffer, so the first five lines it reads are events 1..5,
not events 4..8: the replay prefix is NOT drawn from the ring buffers. -/
theorem c7_replay_counterexample :
    (((daemonRun { active_project := none, events := [], buffer_size := 5 } c7events).2.foldl
        (ringPush 20) []).take 5).map Event.event_type = ["e1", "e2", "e3", "e4", "e5"]
  ∧ ¬ ((((daemonRun { active_project := none, events := [], buffer_size := 5 } c7events).2.foldl
        (ringPush 20) []).take 5).map Event.event_type = ["e4", "e5", "e6", "e7", "e8"])
  ∧ ((alistGet (daemonRun { active_project := none, events := [], buffer_size := 5 }
        c7events).1.events "p").getD []).map Event.event_type =
      ["e4", "e5", "e6", "e7", "e8"] := by decide

/-- C7, amended: the replay prefix a new subscriber receives equals the last
`min(M, total)` events the state owner sent to the fan-out channel, where `M`
is the `replay_on_subscribe` count of the subscriber manager's own
cross-project buffer — independent of the per-project ring size — preserving
per-event order; in particular with replay count 5 the eight-event scenario
replays events 4..8 in order. -/
theorem c7_replay_amended :
    (∀ (n : Nat) (sent : List Event),
      sent.foldl (ringPush n) [] = sent.drop (sent.length - n))
  ∧ ((daemonRun { active_project := none, events := [], buffer_size := 5 } c7events).2.foldl
      (ringPush 5) []).map Event.event_type = ["e4", "e5", "e6", "e7", "e8"] := by
  constructor
  · intro n sent
    have h := foldl_ringPush_eq_drop n sent [] (by simp)
    simpa using h
  · decide

/-- C8, counterexample: serializing an `Event` whose `meta` is `Some(null)`
writes `"meta": null`, which deserializes to `None` (the serde `Option`
deserializer consumes the null), so `Event` → JSON → `Event` is not the
identity on every `Event` value: `c8e` comes back with `meta = None`. -/
theorem c8_roundtrip_counterexample :
    eventFromJson (eventToJson c8e) = some { c8e with meta := none }
  ∧ eventFromJson (eventToJson c8e) ≠ some c8e := by
  refine ⟨rfl, ?_⟩
  intro h
  have h1 : some ({ c8e with meta := none } : Event) = some c8e := by
    rw [← h]
    exact rfl
  have h2 := congrArg Event.meta (Option.some.inj h1)
  simp [c8e] at h2

/-- C8, amended: for every `Event` whose `meta` field is not `Some(JSON null)`
— the one value the serde `Option<Value>` round trip cannot represent —
serializing to JSON and deserializing yields an identical `Event`: the four
required fields, and each optional field, `None` ones omitted from the JSON
and preserved as `None`. -/
theorem c8_roundtrip (e : Event) (h : e.meta ≠ some Json.null) :
    eventFromJson (eventToJson e) = some e := by
  obtain ⟨ty, proj, src, ts, lv, ti, bo, me, pr⟩ := e
  cases me with
  | none => cases lv <;> cases ti <;> cases bo <;> cases pr <;> rfl
  | some m =>
    cases m with
    | null => exact absurd rfl h
    | bool b => cases lv <;> cases ti <;> cases bo <;> cases pr <;> rfl
    | num n => cases lv <;> cases ti <;> cases bo <;> cases pr <;> rfl
    | str s => cases lv <;> cases ti <;> cases bo <;> cases pr <;> rfl
    | arr xs => cases lv <;> cases ti <;> cases bo <;> cases pr <;> rfl
    | obj fs => cases lv <;> cases ti <;> cases bo <;> cases pr <;> rfl

theorem c8_roundtrip_witness : eventFromJson (eventToJson c8w) = some c8w :=
  c8_roundtrip c8w (fun hh => Json.noConfusion (Option.some.inj hh))

/-- C9: an occurrence suppressed inside an open cooldown window increments the
window's count but never moves its expiry; the expiry is written only when a
window is opened — on the first occurrence for a key, or on an occurrence
after the previous window expired — and after any window-opening (non
suppressed) check at time `now`, every further check of that key strictly
before `now + cooldown` is suppressed, so a continuous flood of one key
yields at most one utterance opportunity per cooldown period. -/
theorem c9_cooldown_window_expiry (t : CooldownTracker) (p ty : String) (now : Nat) :
    (∀ en, alistGet t.entries (p, ty) = some en → now < en.expires →
      t.check p ty now =
        ({ t with entries := alistSet t.entries (p, ty) ⟨en.count + 1, en.expires⟩ },
         CooldownAction.suppress))
  ∧ (∀ en, alistGet t.entries (p, ty) = some en → en.expires ≤ now →
      alistGet (t.check p ty now).1.entries (p, ty) =
        some ⟨1, now + t.cooldown⟩)
  ∧ (alistGet t.entries (p, ty) = none →
      (t.check p ty now).1.entries =
        alistSet t.entries (p, ty) ⟨1, now + t.cooldown⟩ ∧
      (t.check p ty now).2 = CooldownAction.speak)
  ∧ (∀ now', (t.check p ty now).2 ≠ CooldownAction.suppress → now' < now + t.cooldown →
      ((t.check p ty now).1.check p ty now').2 = CooldownAction.suppress) := by
  refine ⟨?_, ?_, ?_, ?_⟩
  · intro en hen hlt
    unfold CooldownTracker.check
    dsimp only
    rw [hen]
    simp [hlt]
  · intro en hen hge
    unfold CooldownTracker.check
    dsimp only
    rw [hen]
    simp only [Nat.not_lt.mpr hge, if_false]
    by_cases hcnt : en.count > 1 <;> simp [hcnt, alistGet_set_self]
  · intro hnone
    unfold CooldownTracker.check
    dsimp only
    rw [hnone]
    exact ⟨rfl, rfl⟩
  · intro now' hne hlt
    have he : alistGet (t.check p ty now).1.entries (p, ty) =
        some { count := 1, expires := now + t.cooldown } := by
      rcases hg : alistGet t.entries (p, ty) with _ | en
      · unfold CooldownTracker.check
        dsimp only
        rw [hg]
        exact alistGet_set_self _ _ _
      · by_cases hc : now < en.expires
        · exfalso
          apply hne
          unfold CooldownTracker.check
          dsimp only
          rw [hg]
          simp [hc]
        · unfold CooldownTracker.check
          dsimp only
          rw [hg]
          simp only [hc, if_false]
          by_cases hcnt : en.count > 1 <;> simp [hcnt, alistGet_set_self]
    set r := t.check p ty now with hr
    show (r.1.check p ty now').2 = CooldownAction.suppress
    unfold CooldownTracker.check
    dsimp only
    rw [he]
    simp [hlt]

theorem c9_cooldown_window_expiry_witness :
    ((CooldownTracker.new 5).check "p" "x" 0).1.check "p" "x" 1000 =
      ({ entries := [(("p", "x"), { count := 2, expires := 5000 })], cooldown := 5000 },
       CooldownAction.suppress) :=
  (c9_cooldown_window_expiry (((CooldownTracker.new 5).check "p" "x" 0).1) "p" "x" 1000).1
    { count := 1, expires := 5000 } rfl (by decide)

theorem supLoop_pid_frame (w : SupWorld) :
    ∀ (fuel t : Nat) (svcs : List ManagedService) (fs : SupFS), fs.pid_file = true →
      ((supLoop w fuel t svcs fs).2.1.pid_file = false ↔
        (supLoop w fuel t svcs fs).2.2 = SupExit.signaled)
      ∧ ((supLoop w fuel t svcs fs).2.2 = SupExit.signaled →
          (supLoop w fuel t svcs fs).2.1.services_state =
            some (writeStateRecs (supLoop w fuel t svcs fs).1)
          ∧ (supLoop w fuel t svcs fs).1.all
              (fun s => s.status == ServiceStatus.stopped) = true)
      ∧ (supLoop w fuel t svcs fs).2.2 ≠ SupExit.noServices := by
  intro fuel
  induction fuel with
  | zero =>
    intro t svcs fs hp
    refine ⟨by simp [supLoop, hp], ?_, by simp [supLoop]⟩
    intro hsig
    simp [supLoop] at hsig
  | succ n ih =>
    intro t svcs fs hp
    by_cases hsd : w.shutdownAt t
    · simp only [supLoop, hsd, if_true]
      refine ⟨by simp [gracefulShutdown], ?_, by simp⟩
      intro _
      constructor
      · simp [gracefulShutdown, writeStateRecs]
      · simp [gracefulShutdown, List.all_map, Function.comp]
    · by_cases hterm : (supStepAll w t svcs).1.all isTerminal
      · simp only [supLoop, hsd, if_false, hterm, if_true]
        have hpid : (if (supStepAll w t svcs).2 then
            { fs with services_state := some (writeStateRecs (supStepAll w t svcs).1) }
          else fs).pid_file = true := by
          split <;> simp [hp]
        refine ⟨by simp [hpid], ?_, by simp⟩
        intro hsig
        simp at hsig
      · have ih' := ih (t + 1) (supStepAll w t svcs).1
          (if (supStepAll w t svcs).2 then
            { fs with services_state := some (writeStateRecs (supStepAll w t svcs).1) }
          else fs)
          (by split <;> simp [hp])
        simpa only [supLoop, hsd, if_false, hterm, Bool.false_eq_true] using ih'

/-- C10: the supervisor removes its PID file only on the signal-triggered
graceful-shutdown path (where it also rewrites the state file with every
service stopped).  When it exits naturally — every service terminal, or
immediately because no supervisable service remains after filtering
interactive agents — the PID file written at startup stays on disk, and a
no-services exit leaves the `ServicesState` file exactly as it was. -/
theorem c10_pid_file_frame (w : SupWorld) (fuel : Nat) (processes : List ServiceProcess)
    (fs0 : SupFS) :
    ((runSupervisor w fuel processes fs0).2.1.pid_file = false ↔
      (runSupervisor w fuel processes fs0).2.2 = SupExit.signaled)
  ∧ ((runSupervisor w fuel processes fs0).2.2 = SupExit.noServices →
      (runSupervisor w fuel processes fs0).2.1 =
        { pid_file := true, services_state := fs0.services_state })
  ∧ ((runSupervisor w fuel processes fs0).2.2 = SupExit.signaled →
      (runSupervisor w fuel processes fs0).2.1.services_state =
        some (writeStateRecs (runSupervisor w fuel processes fs0).1)
      ∧ (runSupervisor w fuel processes fs0).1.all
          (fun s => s.status == ServiceStatus.stopped) = true) := by
  by_cases hempty : (processes.filter fun s => !is_interactive_agent s).isEmpty
  · simp only [runSupervisor, hempty, if_true]
    refine ⟨by simp, fun _ => trivial, ?_⟩
    intro hsig
    simp at hsig
  · have h := supLoop_pid_frame w fuel 0
      (initialSpawn w (processes.filter fun s => !is_interactive_agent s))
      { pid_file := true,
        services_state := some (writeStateRecs
          (initialSpawn w (processes.filter fun s => !is_interactive_agent s))) }
      rfl
    refine ⟨?_, ?_, ?_⟩
    · simpa only [runSupervisor, hempty, Bool.false_eq_true, if_false] using h.1
    · intro hns
      exfalso
      apply h.2.2
      simpa only [runSupervisor, hempty, Bool.false_eq_true, if_false] using hns
    · intro hsig
      have h2 := h.2.1
      simp only [runSupervisor, hempty, Bool.false_eq_true, if_false] at hsig ⊢
      exact h2 hsig
